import Mathlib

/-!
Verification of the gamification progression engine of the diegohq blog
backend: XP/level computation (`GameService.calculate_level_from_xp`,
`GameService.calculate_xp_for_level`), daily-reward streaks
(`GameService.claim_daily_reward`), the quest lifecycle
(`QuestService.submit_answer`, `QuestService.submit_code`,
`QuestService.get_all_user_progress`) and content gating
(`GameService.check_access`).

Modelling conventions:
* the database is restricted to a single account's rows (every query in the
  source filters on `user_id`), represented as explicit lists inside `DB`;
* timestamps are integer seconds since the Unix epoch (`Nat`); one UTC
  calendar day is 86400 seconds, `datetime.date()` becomes `dateOf`;
* Python's float formulas `floor(level ** 1.5 * 100)` and
  `int((xp / 100) ** (1 / 1.5))` are embedded as their exact-real values,
  computed in integer arithmetic: `floor (100 * sqrt (L ^ 3))` is
  `Nat.sqrt (10000 * L ^ 3)` and `floor ((xp / 100) ^ (2 / 3))` is the
  largest `n` with `10000 * n ^ 3 ≤ xp ^ 2`;
* the OpenAI chat completion call is an opaque oracle
  `Except Unit String` (its raw reply text, or an exception);
* the service raises exceptions through `Except AppError`.
-/

namespace DiegoHQ

/-- Seconds since the Unix epoch (UTC). -/
abbrev Timestamp := Nat

def secondsPerDay : Nat := 86400

/-- `datetime.now(UTC).replace(hour=0, minute=0, second=0, microsecond=0)`. -/
def startOfDay (t : Timestamp) : Timestamp := t / secondsPerDay * secondsPerDay

/-- `datetime.date()` as a day index since the epoch. -/
def dateOf (t : Timestamp) : Nat := t / secondsPerDay

/-! ## Python string primitives

`str.strip`, `str.lower`, `str.upper`, `str.startswith`, slicing and
`split("\n", 1)`, implemented by structural recursion on the character
list so that they compute inside the kernel. -/

/-- `str.strip()` on a character list. -/
def stripList (cs : List Char) : List Char :=
  ((cs.dropWhile Char.isWhitespace).reverse.dropWhile Char.isWhitespace).reverse

/-- `str.strip()`. -/
def pyStrip (s : String) : String := String.mk (stripList s.data)

/-- `str.lower()` (ASCII, which covers the repository's answers). -/
def pyLower (s : String) : String := String.mk (s.data.map Char.toLower)

/-- `str.upper()` on a character list. -/
def upperList (cs : List Char) : List Char := cs.map Char.toUpper

/-- `s[:n]` (Python slices by code point). -/
def pyTake (s : String) (n : Nat) : String := String.mk (s.data.take n)

/-- `str.split("\n", 1)`: the first line and, when a newline exists, the
remainder. -/
def splitFirstLine : List Char → List Char × Option (List Char)
  | [] => ([], none)
  | c :: rest =>
    if c = '\n' then ([], some rest)
    else
      let r := splitFirstLine rest
      (c :: r.1, r.2)

/-! ## Constants (`quest_service.py`, `game_service.py`) -/

def QUEST_XP_EASY : Int := 30
def QUEST_XP_MEDIUM : Int := 50
def QUEST_XP_HARD : Int := 100
def CODE_SUBMISSION_COOLDOWN : Int := 10
def HINT_THRESHOLD : Nat := 3
def XP_READ_POST : Int := 15
def XP_DAILY_BASE : Int := 10
def XP_DAILY_STREAK_BONUS : Int := 5

/-! ## Level formulas (`GameService.calculate_level_from_xp` /
`calculate_xp_for_level`) -/

/-- Largest `n ≤ bound` satisfying `p`, or `0`. Used to express the exact
value of `int((xp / 100) ** (1 / 1.5))`. -/
def findLargest (p : Nat → Bool) : Nat → Nat
  | 0 => 0
  | n + 1 => if p (n + 1) then n + 1 else findLargest p n

/-- `GameService.calculate_xp_for_level`: `0` for `level ≤ 1`, else
`floor(level ** 1.5 * 100) = Nat.sqrt (10000 * level ^ 3)`. -/
def calculate_xp_for_level (level : Int) : Int :=
  if level ≤ 1 then 0 else (Nat.sqrt (10000 * level.toNat ^ 3) : Int)

/-- `GameService.calculate_level_from_xp`: `1` for `xp ≤ 0`, else
`max 1 (floor((xp / 100) ** (2 / 3)))`; the floor is the largest `n` with
`10000 * n ^ 3 ≤ xp ^ 2` (any such `n` is at most `xp`, so the search bound
`xp` is large enough). -/
def calculate_level_from_xp (xp : Int) : Int :=
  if xp ≤ 0 then 1
  else
    max 1 ((findLargest (fun n => decide (10000 * n ^ 3 ≤ xp.toNat ^ 2)) xp.toNat : Int))

/-! ## Data model (one account's rows) -/

/-- `models/user.py`: the mutable progression fields of an account. -/
structure User where
  xp : Int
  level : Int
  current_streak : Int
  longest_streak : Int
deriving Repr, DecidableEq

/-- `models/xp_transaction.py`: one XP ledger entry. -/
structure XPTransaction where
  amount : Int
  source : String
  source_id : Option String
  description : Option String
deriving Repr, DecidableEq

/-- `models/daily_reward.py`: one daily-claim row. -/
structure DailyReward where
  claimed_at : Timestamp
  reward_type : String
  reward_value : Int
  streak_day : Int
deriving Repr, DecidableEq

/-- `models/quest_progress.py` (plus the `started_at` / `last_attempt_at`
columns from migration 004): per-(account, quest) progress. -/
structure QuestProgress where
  quest_id : String
  completed : Bool := false
  completed_at : Option Timestamp := none
  answer_given : Option String := none
  attempts : Nat := 0
  started_at : Option Timestamp := none
  last_attempt_at : Option Timestamp := none
deriving Repr, DecidableEq

/-- `models/quest_submission.py`: one immutable per-attempt audit row. -/
structure QuestSubmission where
  quest_id : String
  submission_type : String
  passed : Bool
  code_submitted : Option String := none
  answer_submitted : Option String := none
  ai_feedback : Option String := none
  submitted_at : Timestamp
deriving Repr, DecidableEq

/-- `models/content/quest.py`: a quest definition. -/
structure Quest where
  quest_id : String
  name : String := ""
  quest_type : String
  prompt : String := ""
  correct_answer : Option String := none
  language : Option String := none
  ai_criteria : Option String := none
  hint : Option String := none
  xp_reward : Int
deriving Repr, DecidableEq

/-- `models/content/post.py` restricted to the fields the quest service
reads. -/
structure Post where
  slug : String
  title : String
  quest_id : Option String := none
deriving Repr, DecidableEq

/-- The account's slice of the database. -/
structure DB where
  user : User
  quest_progress : List QuestProgress := []
  submissions : List QuestSubmission := []
  xp_transactions : List XPTransaction := []
  daily_rewards : List DailyReward := []
  inventory : List String := []
  unlocked_posts : List String := []
deriving Repr, DecidableEq

/-- Immutable content: quest and post definitions. -/
structure Env where
  quests : List Quest := []
  posts : List Post := []
deriving Repr, DecidableEq

/-- `core/exceptions.py`: the two exception kinds the quest service uses. -/
inductive AppError where
  | notFound (msg : String)
  | badRequest (msg : String)
deriving Repr, DecidableEq

/-! ## Repository layer -/

/-- `QuestRepository.get_by_quest_id` (the `quest_id` column is unique). -/
def get_by_quest_id (env : Env) (quest_id : String) : Option Quest :=
  env.quests.find? (fun q => q.quest_id == quest_id)

/-- `PostRepository.get_by_quest_id`. -/
def get_post_by_quest_id (env : Env) (quest_id : String) : Option Post :=
  env.posts.find? (fun p => p.quest_id == some quest_id)

/-- `QuestProgressRepository.get_user_quest` (unique per (user, quest) by
the `uq_user_quest` constraint). -/
def get_user_quest (db : DB) (quest_id : String) : Option QuestProgress :=
  db.quest_progress.find? (fun p => p.quest_id == quest_id)

/-- Rewrite the progress row with the given quest id in place
(`db.flush()` on a mutated ORM row). -/
def setQuest (db : DB) (quest_id : String) (f : QuestProgress → QuestProgress) : DB :=
  { db with
    quest_progress :=
      db.quest_progress.map (fun p => if p.quest_id == quest_id then f p else p) }

/-- `QuestProgressRepository.increment_attempts`. -/
def increment_attempts (db : DB) (quest_id answer : String) : QuestProgress × DB :=
  match get_user_quest db quest_id with
  | some p =>
    let p' := { p with attempts := p.attempts + 1, answer_given := some answer }
    (p', setQuest db quest_id (fun _ => p'))
  | none =>
    let p' : QuestProgress := { quest_id := quest_id, attempts := 1, answer_given := some answer }
    (p', { db with quest_progress := db.quest_progress ++ [p'] })

/-- `QuestProgressRepository.mark_completed`. -/
def mark_completed (now : Timestamp) (db : DB) (quest_id answer : String) :
    QuestProgress × DB :=
  match get_user_quest db quest_id with
  | some p =>
    let p' := { p with completed := true, completed_at := some now,
                       answer_given := some answer, attempts := p.attempts + 1 }
    (p', setQuest db quest_id (fun _ => p'))
  | none =>
    let p' : QuestProgress :=
      { quest_id := quest_id, completed := true, completed_at := some now,
        answer_given := some answer, attempts := 1, started_at := some now }
    (p', { db with quest_progress := db.quest_progress ++ [p'] })

/-- `QuestProgressRepository.start_quest`; the `Bool` is `already_started`. -/
def start_quest_repo (now : Timestamp) (db : DB) (quest_id : String) :
    QuestProgress × Bool × DB :=
  match get_user_quest db quest_id with
  | some p => (p, true, db)
  | none =>
    let p' : QuestProgress := { quest_id := quest_id, started_at := some now, attempts := 0 }
    (p', false, { db with quest_progress := db.quest_progress ++ [p'] })

/-- `QuestProgressRepository.update_last_attempt`: bumps the timestamp and
the counter of an EXISTING row; creates nothing when no row is present. -/
def update_last_attempt (now : Timestamp) (db : DB) (quest_id : String) :
    Option QuestProgress × DB :=
  match get_user_quest db quest_id with
  | some p =>
    let p' := { p with last_attempt_at := some now, attempts := p.attempts + 1 }
    (some p', setQuest db quest_id (fun _ => p'))
  | none => (none, db)

/-- `QuestSubmissionRepository.create_submission`. -/
def create_submission (now : Timestamp) (db : DB) (quest_id submission_type : String)
    (passed : Bool) (code answer ai_feedback : Option String) : DB :=
  { db with
    submissions := db.submissions ++
      [{ quest_id := quest_id, submission_type := submission_type, passed := passed,
         code_submitted := code, answer_submitted := answer, ai_feedback := ai_feedback,
         submitted_at := now }] }

/-- `QuestSubmissionRepository.count_failed_submissions`. -/
def count_failed_submissions (db : DB) (quest_id : String) : Nat :=
  (db.submissions.filter (fun s => s.quest_id == quest_id && s.passed == false)).length

/-- `DailyRewardRepository.has_claimed_today`. -/
def has_claimed_today (now : Timestamp) (db : DB) : Bool :=
  db.daily_rewards.any (fun r => startOfDay now ≤ r.claimed_at)

/-- `DailyRewardRepository.get_last_claim` (`ORDER BY claimed_at DESC LIMIT 1`). -/
def get_last_claim (db : DB) : Option DailyReward :=
  db.daily_rewards.foldl
    (fun acc r =>
      match acc with
      | none => some r
      | some b => if b.claimed_at < r.claimed_at then some r else some b)
    none

/-- `InventoryRepository.user_has_item`. -/
def user_has_item (db : DB) (item_id : String) : Bool :=
  db.inventory.contains item_id

/-- `PostProgressRepository.is_post_unlocked`. -/
def is_post_unlocked (db : DB) (post_slug : String) : Bool :=
  db.unlocked_posts.contains post_slug

/-! ## Response schemas (`schemas/quest.py`, `schemas/game.py`) -/

structure StartQuestResponse where
  success : Bool
  quest_id : String
  already_started : Bool
  already_completed : Bool
deriving Repr, DecidableEq

structure QuestSubmitResponse where
  success : Bool
  correct : Bool
  xp_awarded : Int
  attempts : Nat
  new_xp : Int
  new_level : Int
  leveled_up : Bool
  feedback : String
deriving Repr, DecidableEq

structure CodeSubmitResponse where
  passed : Bool
  feedback : String
  attempts : Nat
  show_hint : Bool
  hint : Option String
  cooldown_seconds : Int
  xp_awarded : Int
  new_xp : Int
  new_level : Int
  leveled_up : Bool
deriving Repr, DecidableEq

structure QuestProgressResponse where
  quest_id : String
  quest_name : String
  quest_type : String
  xp_reward : Int
  xp_earned : Int
  host_post_slug : String
  host_post_title : Option String
  in_progress : Bool
  completed : Bool
  started_at : Option Timestamp
  completed_at : Option Timestamp
  attempts : Nat
deriving Repr, DecidableEq

structure DailyRewardResponse where
  success : Bool
  xp_awarded : Int
  streak_day : Int
  new_xp : Int
  new_level : Int
  leveled_up : Bool
  already_claimed : Bool
  next_claim_at : Option Timestamp
deriving Repr, DecidableEq

structure AccessCheckResponse where
  has_access : Bool
  reason : Option String
  user_level : Int
  required_level : Option Int
  has_required_item : Option Bool
deriving Repr, DecidableEq

/-! ## `GameService` -/

/-- `GameService.award_xp`: returns `(new_xp, new_level, leveled_up)` and
the updated database (user row plus one ledger entry). -/
def award_xp (db : DB) (amount : Int) (source : String)
    (source_id description : Option String) : (Int × Int × Bool) × DB :=
  let old_level := db.user.level
  let new_xp := db.user.xp + amount
  let new_level := calculate_level_from_xp new_xp
  let db' := { db with user := { db.user with xp := new_xp, level := new_level } }
  let db' := { db' with
    xp_transactions := db'.xp_transactions ++
      [{ amount := amount, source := source, source_id := source_id,
         description := description }] }
  ((new_xp, new_level, decide (old_level < new_level)), db')

/-- `GameService.claim_daily_reward`. -/
def claim_daily_reward (now : Timestamp) (db : DB) : DailyRewardResponse × DB :=
  let user := db.user
  if has_claimed_today now db then
    let next_claim := startOfDay now + secondsPerDay
    ({ success := false, xp_awarded := 0, streak_day := user.current_streak,
       new_xp := user.xp, new_level := user.level, leveled_up := false,
       already_claimed := true, next_claim_at := some next_claim }, db)
  else
    let new_streak : Int :=
      match get_last_claim db with
      | some last_claim =>
        if dateOf last_claim.claimed_at = dateOf now - 1 then user.current_streak + 1 else 1
      | none => 1
    let streak_bonus := min (new_streak - 1) 7 * XP_DAILY_STREAK_BONUS
    let xp_amount := XP_DAILY_BASE + streak_bonus
    let longest_streak := max user.longest_streak new_streak
    let db' := { db with
      user := { db.user with current_streak := new_streak, longest_streak := longest_streak } }
    let res := award_xp db' xp_amount "daily_reward" none
      (some ("Daily reward (streak day " ++ toString new_streak ++ ")"))
    let new_xp := res.1.1
    let new_level := res.1.2.1
    let leveled_up := res.1.2.2
    let db' := { res.2 with
      daily_rewards := res.2.daily_rewards ++
        [{ claimed_at := now, reward_type := "xp", reward_value := xp_amount,
           streak_day := new_streak }] }
    ({ success := true, xp_awarded := xp_amount, streak_day := new_streak,
       new_xp := new_xp, new_level := new_level, leveled_up := leveled_up,
       already_claimed := false, next_claim_at := none }, db')

/-- `GameService.check_access`. Python truthiness: `required_level=0` and
`required_item=""` disable their checks just like `None` does. -/
def check_access (db : DB) (post_slug : String)
    (required_level : Option Int) (required_item : Option String) : AccessCheckResponse :=
  let user := db.user
  let afterLevel : Bool × Option String :=
    match required_level with
    | some l =>
      if l ≠ 0 ∧ user.level < l then (false, some ("Requires level " ++ toString l))
      else (true, none)
    | none => (true, none)
  match required_item with
  | some item =>
    if item = "" then
      { has_access := afterLevel.1, reason := afterLevel.2, user_level := user.level,
        required_level := required_level, has_required_item := none }
    else
      let has_item := user_has_item db item
      let is_unlocked := is_post_unlocked db post_slug
      if !has_item && !is_unlocked then
        { has_access := false, reason := some ("Requires item: " ++ item),
          user_level := user.level, required_level := required_level,
          has_required_item := some has_item }
      else
        { has_access := afterLevel.1, reason := afterLevel.2, user_level := user.level,
          required_level := required_level, has_required_item := some has_item }
  | none =>
    { has_access := afterLevel.1, reason := afterLevel.2, user_level := user.level,
      required_level := required_level, has_required_item := none }

/-! ## `AIService` -/

/-- The feedback `AIService.review_code` substitutes when the OpenAI call
raises. -/
def aiErrorFeedback : String := "An error occurred during code review. Please try again."

/-- The feedback used when no API key is configured. -/
def aiNoKeyFeedback : String := "Code review is not available. Please configure OpenAI API key."

/-- `AIService.review_code`: wraps the opaque chat-completion oracle
(`Except Unit String`, the raw reply text or an exception) and parses the
`PASS`/`FAIL` protocol; an oracle error degrades to `(false, aiErrorFeedback)`. -/
def review_code (api_key_configured : Bool) (oracle : Except Unit String) : Bool × String :=
  if !api_key_configured then (false, aiNoKeyFeedback)
  else
    match oracle with
    | .error _ => (false, aiErrorFeedback)
    | .ok content =>
      let parts := splitFirstLine (stripList content.data)
      let first_line := stripList (upperList parts.1)
      let passed := "PASS".data.isPrefixOf first_line
      let feedback :=
        match parts.2 with
        | some rest => String.mk (stripList rest)
        | none => content
      (passed, feedback)

/-! ## `QuestService` -/

/-- `QuestService.start_quest`. -/
def start_quest (env : Env) (now : Timestamp) (db : DB) (quest_id : String) :
    Except AppError (StartQuestResponse × DB) :=
  match get_by_quest_id env quest_id with
  | none => .error (.notFound ("Quest " ++ quest_id ++ " not found"))
  | some _ =>
    let existing := get_user_quest db quest_id
    if (existing.map (fun p => p.completed)).getD false then
      .ok ({ success := true, quest_id := quest_id, already_started := true,
             already_completed := true }, db)
    else
      let res := start_quest_repo now db quest_id
      .ok ({ success := true, quest_id := quest_id, already_started := res.2.1,
             already_completed := false }, res.2.2)

/-- `QuestService.submit_answer`. -/
def submit_answer (env : Env) (now : Timestamp) (db : DB) (quest_id answer : String) :
    Except AppError (QuestSubmitResponse × DB) :=
  let user := db.user
  match get_by_quest_id env quest_id with
  | none => .error (.notFound ("Quest " ++ quest_id ++ " not found"))
  | some quest =>
    if quest.quest_type ≠ "multiple-choice" then
      .error (.badRequest "This quest requires code submission")
    else
      let existing := get_user_quest db quest_id
      if (existing.map (fun p => p.completed)).getD false then
        .error (.badRequest "Quest already completed")
      else
        let normalized_answer := pyLower (pyStrip answer)
        let correct_answer := pyLower (pyStrip (quest.correct_answer.getD ""))
        let is_correct := normalized_answer == correct_answer
        let db' := create_submission now db quest_id "multiple-choice" is_correct
          none (some answer) none
        if is_correct then
          let mc := mark_completed now db' quest_id answer
          let xp_amount := quest.xp_reward
          let ax := award_xp mc.2 xp_amount "quest" (some quest_id)
            (some ("Completed quest: " ++ quest_id))
          .ok ({ success := true, correct := true, xp_awarded := xp_amount,
                 attempts := mc.1.attempts, new_xp := ax.1.1, new_level := ax.1.2.1,
                 leveled_up := ax.1.2.2, feedback := "Correct! Quest completed." }, ax.2)
        else
          let ia := increment_attempts db' quest_id answer
          .ok ({ success := true, correct := false, xp_awarded := 0,
                 attempts := ia.1.attempts, new_xp := user.xp, new_level := user.level,
                 leveled_up := false, feedback := "Incorrect. Try again!" }, ia.2)

/-- `QuestService.submit_code`. `api_key` says whether an OpenAI key is
configured; `oracle` is the opaque chat-completion call. -/
def submit_code (env : Env) (api_key : Bool) (oracle : Except Unit String)
    (now : Timestamp) (db : DB) (quest_id code : String) :
    Except AppError (CodeSubmitResponse × DB) :=
  let user := db.user
  match get_by_quest_id env quest_id with
  | none => .error (.notFound ("Quest " ++ quest_id ++ " not found"))
  | some quest =>
    if quest.quest_type ≠ "code" then
      .error (.badRequest "This quest requires a multiple-choice answer")
    else
      let existing := get_user_quest db quest_id
      if (existing.map (fun p => p.completed)).getD false then
        .error (.badRequest "Quest already completed")
      else
        let cooldown_remaining : Option Int :=
          match existing with
          | some p =>
            match p.last_attempt_at with
            | some last =>
              let elapsed : Int := (now : Int) - (last : Int)
              if elapsed < CODE_SUBMISSION_COOLDOWN then
                some (CODE_SUBMISSION_COOLDOWN - elapsed)
              else none
            | none => none
          | none => none
        match cooldown_remaining with
        | some remaining =>
          .ok ({ passed := false,
                 feedback := "Please wait " ++ toString remaining ++
                   " seconds before submitting again.",
                 attempts := (existing.map (fun p => p.attempts)).getD 0,
                 show_hint := false, hint := none, cooldown_seconds := remaining,
                 xp_awarded := 0, new_xp := user.xp, new_level := user.level,
                 leveled_up := false }, db)
        | none =>
          let review := review_code api_key oracle
          let passed := review.1
          let feedback := review.2
          let db' := (update_last_attempt now db quest_id).2
          let progress := get_user_quest db' quest_id
          let attempts := (progress.map (fun p => p.attempts)).getD 1
          let db' := create_submission now db' quest_id "code" passed
            (some code) none (some feedback)
          let failed_count := count_failed_submissions db' quest_id
          let show_hint := decide (HINT_THRESHOLD ≤ failed_count) && quest.hint.isSome
          if passed then
            let mc := mark_completed now db' quest_id (pyTake code 500)
            let xp_amount := quest.xp_reward
            let ax := award_xp mc.2 xp_amount "quest" (some quest_id)
              (some ("Completed code quest: " ++ quest_id))
            .ok ({ passed := true, feedback := feedback, attempts := attempts,
                   show_hint := false, hint := none, cooldown_seconds := 0,
                   xp_awarded := xp_amount, new_xp := ax.1.1, new_level := ax.1.2.1,
                   leveled_up := ax.1.2.2 }, ax.2)
          else
            .ok ({ passed := false, feedback := feedback, attempts := attempts,
                   show_hint := show_hint,
                   hint := if show_hint then quest.hint else none,
                   cooldown_seconds := CODE_SUBMISSION_COOLDOWN, xp_awarded := 0,
                   new_xp := user.xp, new_level := user.level,
                   leveled_up := false }, db')

/-! ## `QuestService.get_all_user_progress` -/

/-- The `sort_key` closure: `(0, started_at or datetime.min)` for
in-progress rows, `(1, completed_at or datetime.min)` for the rest. -/
def sort_key (x : QuestProgressResponse) : Nat × Timestamp :=
  if x.in_progress then (0, x.started_at.getD 0) else (1, x.completed_at.getD 0)

/-- Lexicographic strict order on sort keys. -/
def keyLt (a b : Nat × Timestamp) : Bool :=
  a.1 < b.1 || (a.1 == b.1 && a.2 < b.2)

/-- Insert into a list kept in descending key order, after any entry with
an equal or greater key (preserves stability). -/
def insertDesc (x : QuestProgressResponse) :
    List QuestProgressResponse → List QuestProgressResponse
  | [] => [x]
  | y :: ys => if keyLt (sort_key y) (sort_key x) then x :: y :: ys else y :: insertDesc x ys

/-- Python's `list.sort(key=sort_key, reverse=True)`: a stable descending
sort by `sort_key`. -/
def pySortDesc (l : List QuestProgressResponse) : List QuestProgressResponse :=
  l.foldl (fun acc x => insertDesc x acc) []

/-- The response row built for one progress row, when it survives the
filter and its quest definition exists. -/
def progressRow (env : Env) (p : QuestProgress) (include_in_progress : Bool) :
    Option QuestProgressResponse :=
  let is_in_progress := p.started_at.isSome && !p.completed
  if !p.completed && !(include_in_progress && is_in_progress) then none
  else
    match get_by_quest_id env p.quest_id with
    | none => none
    | some quest =>
      let post := get_post_by_quest_id env p.quest_id
      some { quest_id := p.quest_id, quest_name := quest.name,
             quest_type := quest.quest_type, xp_reward := quest.xp_reward,
             xp_earned := if p.completed then quest.xp_reward else 0,
             host_post_slug := (post.map (fun x => x.slug)).getD "",
             host_post_title := post.map (fun x => x.title),
             in_progress := is_in_progress, completed := p.completed,
             started_at := p.started_at, completed_at := p.completed_at,
             attempts := p.attempts }

/-- `QuestService.get_all_user_progress`. -/
def get_all_user_progress (env : Env) (db : DB) (include_in_progress : Bool) :
    List QuestProgressResponse :=
  pySortDesc (db.quest_progress.filterMap (fun p => progressRow env p include_in_progress))

/-! ## Concrete instances used by witnesses and counterexamples -/

def userC : User := { xp := 40, level := 1, current_streak := 3, longest_streak := 5 }

/-- A multiple-choice quest and a code quest. -/
def envC : Env :=
  { quests :=
      [{ quest_id := "q1", name := "Quiz", quest_type := "multiple-choice",
         correct_answer := some "A", xp_reward := 30 },
       { quest_id := "q2", name := "Kata", quest_type := "code",
         language := some "javascript", hint := some "use a loop", xp_reward := 50 }],
    posts := [{ slug := "post-1", title := "Post One", quest_id := some "q1" }] }

/-- The account already claimed on day 10 (claim C5). -/
def dbClaimed : DB :=
  { user := userC,
    daily_rewards := [{ claimed_at := 86400 * 10 + 100, reward_type := "xp",
                        reward_value := 10, streak_day := 3 }] }

/-- The account last claimed on day 9 (claim C6). -/
def dbYesterday : DB :=
  { user := userC,
    daily_rewards := [{ claimed_at := 86400 * 9 + 50, reward_type := "xp",
                        reward_value := 10, streak_day := 3 }] }

/-- Quest `q1` already completed (claim C1). -/
def dbCompleted : DB :=
  { user := userC,
    quest_progress := [{ quest_id := "q1", completed := true, completed_at := some 500,
                         attempts := 1, started_at := some 400 },
                       { quest_id := "q2", completed := true, completed_at := some 700,
                         attempts := 2, started_at := some 600 }] }

/-- Quest `q2` attempted at `t = 100` (claim C4). -/
def dbCooling : DB :=
  { user := userC,
    quest_progress := [{ quest_id := "q2", attempts := 2, started_at := some 90,
                         last_attempt_at := some 100 }] }

/-- No progress rows at all (claim C3). -/
def dbEmpty : DB := { user := userC }

/-- Quest `q2` started but never attempted (claims C7, C10). -/
def dbStarted : DB :=
  { user := userC,
    quest_progress := [{ quest_id := "q2", attempts := 0, started_at := some 40 }] }

/-- One completed row (older completion) and one in-progress row (newer
start) for the listProgress ordering (claim C2). -/
def dbTwoTier : DB :=
  { user := userC,
    quest_progress := [{ quest_id := "q2", attempts := 1, started_at := some (86400 * 10) },
                       { quest_id := "q1", completed := true, attempts := 1,
                         started_at := some (86400 * 4),
                         completed_at := some (86400 * 5) }] }

/-- The quest-progress list after a successful `submit_code` run,
projected out of the result (claim C3). -/
def progressAfterCode (env : Env) (api : Bool) (oracle : Except Unit String)
    (now : Timestamp) (db : DB) (quest_id code : String) : Option (List QuestProgress) :=
  match submit_code env api oracle now db quest_id code with
  | .ok r => some r.2.quest_progress
  | .error _ => none

/-- The conditions under which `submit_code` reaches the review oracle for
a given progress state: no row, or a row that is neither completed nor
inside the cooldown window. -/
def reaches_review (now : Timestamp) (db : DB) (qid : String) : Prop :=
  get_user_quest db qid = none ∨
    ∃ p, get_user_quest db qid = some p ∧ p.completed = false ∧
      (p.last_attempt_at = none ∨
        ∃ last, p.last_attempt_at = some last ∧
          CODE_SUBMISSION_COOLDOWN ≤ (now : Int) - (last : Int))

/-! ## Generic lemmas about the repository operations -/

theorem get_user_quest_setQuest (db : DB) (qid : String) (f : QuestProgress → QuestProgress)
    (hf : ∀ p, p.quest_id = qid → (f p).quest_id = p.quest_id) (qid' : String) :
    get_user_quest (setQuest db qid f) qid' =
      (get_user_quest db qid').map (fun p => if p.quest_id == qid then f p else p) := by
  unfold get_user_quest setQuest
  rw [List.find?_map]
  have hpred : ((fun p : QuestProgress => p.quest_id == qid') ∘
      fun p => if p.quest_id == qid then f p else p) =
      fun p : QuestProgress => p.quest_id == qid' := by
    funext p
    by_cases h : p.quest_id == qid
    · simp [Function.comp, h, hf p (by simpa using h)]
    · simp [Function.comp, h]
  rw [hpred]

theorem get_user_quest_append (db : DB) (p' : QuestProgress) (qid' : String) :
    get_user_quest { db with quest_progress := db.quest_progress ++ [p'] } qid' =
      ((get_user_quest db qid').or (if p'.quest_id == qid' then some p' else none)) := by
  unfold get_user_quest
  rw [List.find?_append]
  cases h : db.quest_progress.find? (fun p => p.quest_id == qid') with
  | some p => simp [Option.or]
  | none =>
    by_cases hq : p'.quest_id == qid' <;> simp [List.find?, hq, Option.or]

theorem get_user_quest_create_submission (now : Timestamp) (db : DB)
    (qid ty : String) (passed : Bool) (c a fb : Option String) (qid' : String) :
    get_user_quest (create_submission now db qid ty passed c a fb) qid' =
      get_user_quest db qid' := rfl

theorem get_user_quest_award_xp (db : DB) (amount : Int) (source : String)
    (sid desc : Option String) (qid' : String) :
    get_user_quest (award_xp db amount source sid desc).2 qid' =
      get_user_quest db qid' := rfl

/-- Helper: `update_last_attempt` on an existing row bumps its timestamp
and counter. -/
theorem update_last_attempt_updates (now : Timestamp) (db : DB) (qid : String)
    (p : QuestProgress) (hp : get_user_quest db qid = some p) :
    get_user_quest (update_last_attempt now db qid).2 qid =
      some { p with last_attempt_at := some now, attempts := p.attempts + 1 } := by
  have hid : p.quest_id = qid := by simpa using List.find?_some hp
  unfold update_last_attempt
  rw [hp]
  refine Eq.trans (get_user_quest_setQuest db qid _ (fun r hr => by simp [hid, hr]) qid) ?_
  rw [hp]
  simp [hid]

/-- Helper: `mark_completed` on an existing row completes it and bumps its
counter. -/
theorem mark_completed_updates (now : Timestamp) (db : DB) (qid ans : String)
    (p : QuestProgress) (hp : get_user_quest db qid = some p) :
    get_user_quest (mark_completed now db qid ans).2 qid =
      some { p with completed := true, completed_at := some now,
                    answer_given := some ans, attempts := p.attempts + 1 } := by
  have hid : p.quest_id = qid := by simpa using List.find?_some hp
  unfold mark_completed
  rw [hp]
  refine Eq.trans (get_user_quest_setQuest db qid _ (fun r hr => by simp [hid, hr]) qid) ?_
  rw [hp]
  simp [hid]

/-! ## Lemmas about the level curve -/

theorem findLargest_le (p : Nat → Bool) (b : Nat) : findLargest p b ≤ b := by
  induction b with
  | zero => simp [findLargest]
  | succ n ih =>
    unfold findLargest
    by_cases h : p (n + 1)
    · simp [h]
    · rw [if_neg (by simp [h])]
      omega

theorem le_findLargest (p : Nat → Bool) (b n : Nat) (hnb : n ≤ b) (hp : p n = true) :
    n ≤ findLargest p b := by
  induction b with
  | zero => omega
  | succ m ih =>
    unfold findLargest
    by_cases h : p (m + 1) = true
    · rw [if_pos h]
      omega
    · rw [if_neg h]
      rcases Nat.lt_or_ge n (m + 1) with hlt | hge
      · exact ih (by omega)
      · exact absurd ((show n = m + 1 by omega) ▸ hp) h

theorem findLargest_spec (p : Nat → Bool) (b : Nat) :
    findLargest p b = 0 ∨ p (findLargest p b) = true := by
  induction b with
  | zero => left; rfl
  | succ m ih =>
    unfold findLargest
    by_cases h : p (m + 1) = true
    · right
      rw [if_pos h]
      exact h
    · rw [if_neg h]
      exact ih

theorem sqrt_curve_upper (n : Nat) (h1 : 1 ≤ n) :
    Nat.sqrt (10000 * n ^ 3) ≤ 100 * n ^ 2 := by
  have h : 10000 * n ^ 3 ≤ (100 * n ^ 2) * (100 * n ^ 2) := by nlinarith
  have h2 := Nat.sqrt_le_sqrt h
  simpa [Nat.sqrt_eq] using h2

theorem sqrt_curve_lower (n : Nat) (h1 : 1 ≤ n) : n ≤ Nat.sqrt (10000 * n ^ 3) := by
  have h : n * n ≤ 10000 * n ^ 3 := by nlinarith
  have h2 := Nat.sqrt_le_sqrt h
  simpa [Nat.sqrt_eq] using h2

theorem sqrt_curve_strict_mono (n : Nat) (h1 : 1 ≤ n) :
    Nat.sqrt (10000 * n ^ 3) < Nat.sqrt (10000 * (n + 1) ^ 3) := by
  have hs := Nat.sqrt_le (10000 * n ^ 3)
  have hup := sqrt_curve_upper n h1
  have key : (Nat.sqrt (10000 * n ^ 3) + 1) * (Nat.sqrt (10000 * n ^ 3) + 1)
      ≤ 10000 * (n + 1) ^ 3 := by nlinarith
  have h2 := Nat.le_sqrt.mpr key
  omega

theorem cube_bound (x n v : Nat) (hx : x * x ≤ 10000 * n ^ 3)
    (hv : 10000 * v ^ 3 ≤ x ^ 2) : v ≤ n := by
  by_contra hcon
  push_neg at hcon
  have h3 : (n + 1) ^ 3 ≤ v ^ 3 := Nat.pow_le_pow_left (by omega) 3
  have h4 : n ^ 3 < (n + 1) ^ 3 := Nat.pow_lt_pow_left (by omega) (by norm_num)
  nlinarith

theorem roundtrip_bounds (n : Nat) (h2 : 2 ≤ n) :
    n - 1 ≤ findLargest
        (fun m => decide (10000 * m ^ 3 ≤ Nat.sqrt (10000 * n ^ 3) ^ 2))
        (Nat.sqrt (10000 * n ^ 3))
      ∧ findLargest
          (fun m => decide (10000 * m ^ 3 ≤ Nat.sqrt (10000 * n ^ 3) ^ 2))
          (Nat.sqrt (10000 * n ^ 3)) ≤ n := by
  have hs := Nat.sqrt_le (10000 * n ^ 3)
  have hlt := Nat.lt_succ_sqrt (10000 * n ^ 3)
  have hup := sqrt_curve_upper n (by omega)
  have hlow := sqrt_curve_lower n (by omega)
  constructor
  · apply le_findLargest
    · omega
    · have hkey : 10000 * (n - 1) ^ 3 ≤ Nat.sqrt (10000 * n ^ 3) ^ 2 := by
        obtain ⟨m, rfl⟩ : ∃ m, n = m + 1 := ⟨n - 1, by omega⟩
        have hm1 : 1 ≤ m := by omega
        simp only [Nat.add_sub_cancel]
        nlinarith
      simpa using hkey
  · rcases findLargest_spec
        (fun m => decide (10000 * m ^ 3 ≤ Nat.sqrt (10000 * n ^ 3) ^ 2))
        (Nat.sqrt (10000 * n ^ 3)) with h0 | hp
    · rw [h0]
      omega
    · exact cube_bound (Nat.sqrt (10000 * n ^ 3)) n _ hs (by simpa using hp)

/-- Helper: an oracle failure produces exactly the same review result as a
reply reading `FAIL` followed by the error feedback. -/
theorem review_error_as_fail (api : Bool) :
    review_code api (.error ()) = review_code api (.ok ("FAIL\n" ++ aiErrorFeedback)) := by
  cases api <;> rfl

/-! ## Claim theorems -/

/-- C1: once a (account, quest) progress row has `completed = true`, any
further `submit_answer` or `submit_code` call raises `BadRequest` — with
the message "Quest already completed" on the endpoint matching the quest's
type — and never returns a success value, so no state is produced and the
quest's XP reward cannot be paid out a second time. -/
theorem completed_quest_is_terminal (env : Env) (api : Bool) (oracle : Except Unit String)
    (now : Timestamp) (db : DB) (quest_id answer code : String) (quest : Quest)
    (p : QuestProgress)
    (hq : get_by_quest_id env quest_id = some quest)
    (hp : get_user_quest db quest_id = some p)
    (hc : p.completed = true) :
    (quest.quest_type = "multiple-choice" →
        submit_answer env now db quest_id answer
          = .error (.badRequest "Quest already completed"))
      ∧ (quest.quest_type = "code" →
          submit_code env api oracle now db quest_id code
            = .error (.badRequest "Quest already completed"))
      ∧ (∀ r, submit_answer env now db quest_id answer ≠ .ok r)
      ∧ (∀ r, submit_code env api oracle now db quest_id code ≠ .ok r) := by
  refine ⟨?_, ?_, ?_, ?_⟩
  · intro ht; unfold submit_answer; rw [hq]; simp [ht, hp, hc]
  · intro ht; unfold submit_code; rw [hq]; simp [ht, hp, hc]
  · intro r; unfold submit_answer; rw [hq]
    by_cases ht : quest.quest_type = "multiple-choice" <;> simp [ht, hp, hc]
  · intro r; unfold submit_code; rw [hq]
    by_cases ht : quest.quest_type = "code" <;> simp [ht, hp, hc]

theorem completed_quest_is_terminal_witness :
    submit_answer envC 1000 dbCompleted "q1" "A"
      = .error (.badRequest "Quest already completed") :=
  (completed_quest_is_terminal envC true (.ok "PASS") 1000 dbCompleted "q1" "A" "x"
    { quest_id := "q1", name := "Quiz", quest_type := "multiple-choice",
      correct_answer := some "A", xp_reward := 30 }
    { quest_id := "q1", completed := true, completed_at := some 500,
      attempts := 1, started_at := some 400 }
    (by decide) (by decide) rfl).1 rfl

/-- C4: a `submit_code` call made less than `CODE_SUBMISSION_COOLDOWN`
seconds after the row's `last_attempt_at` returns `passed = false`, the
remaining cooldown and a "please wait" message, with the attempt counter
unchanged, the database untouched (so no `QuestSubmission` row is added),
and a result independent of the oracle (the review oracle is not
invoked). -/
theorem submit_code_on_cooldown (env : Env) (api : Bool) (oracle : Except Unit String)
    (now : Timestamp) (db : DB) (quest_id code : String) (quest : Quest)
    (p : QuestProgress) (last : Timestamp)
    (hq : get_by_quest_id env quest_id = some quest)
    (ht : quest.quest_type = "code")
    (hp : get_user_quest db quest_id = some p)
    (hc : p.completed = false)
    (hl : p.last_attempt_at = some last)
    (hcd : (now : Int) - (last : Int) < CODE_SUBMISSION_COOLDOWN) :
    submit_code env api oracle now db quest_id code =
      .ok ({ passed := false,
             feedback := "Please wait " ++
               toString (CODE_SUBMISSION_COOLDOWN - ((now : Int) - (last : Int))) ++
               " seconds before submitting again.",
             attempts := p.attempts, show_hint := false, hint := none,
             cooldown_seconds := CODE_SUBMISSION_COOLDOWN - ((now : Int) - (last : Int)),
             xp_awarded := 0, new_xp := db.user.xp, new_level := db.user.level,
             leveled_up := false }, db) := by
  unfold submit_code
  rw [hq]
  simp [ht, hp, hc, hl, hcd]

theorem submit_code_on_cooldown_witness :
    submit_code envC true (.ok "PASS\nok") 105 dbCooling "q2" "x" =
      .ok ({ passed := false,
             feedback := "Please wait 5 seconds before submitting again.",
             attempts := 2, show_hint := false, hint := none, cooldown_seconds := 5,
             xp_awarded := 0, new_xp := 40, new_level := 1, leveled_up := false },
           dbCooling) :=
  submit_code_on_cooldown envC true (.ok "PASS\nok") 105 dbCooling "q2" "x"
    { quest_id := "q2", name := "Kata", quest_type := "code",
      language := some "javascript", hint := some "use a loop", xp_reward := 50 }
    { quest_id := "q2", attempts := 2, started_at := some 90, last_attempt_at := some 100 }
    100 (by decide) rfl (by decide) rfl rfl (by decide)

/-- C5: when a claim row with `claimed_at ≥ start of the current UTC day`
exists, `claim_daily_reward` returns `already_claimed = true`,
`xp_awarded = 0`, `next_claim_at` = the start of the next UTC day, and
returns the database unchanged (streak fields and XP untouched). -/
theorem already_claimed_no_reward (now : Timestamp) (db : DB)
    (h : has_claimed_today now db = true) :
    claim_daily_reward now db =
      ({ success := false, xp_awarded := 0, streak_day := db.user.current_streak,
         new_xp := db.user.xp, new_level := db.user.level, leveled_up := false,
         already_claimed := true,
         next_claim_at := some (startOfDay now + secondsPerDay) }, db) := by
  unfold claim_daily_reward
  simp [h]

theorem already_claimed_no_reward_witness :
    claim_daily_reward 869000 dbClaimed =
      ({ success := false, xp_awarded := 0, streak_day := 3, new_xp := 40, new_level := 1,
         leveled_up := false, already_claimed := true, next_claim_at := some 950400 },
       dbClaimed) :=
  already_claimed_no_reward 869000 dbClaimed (by decide)

/-- C8: with both a (nonzero) level requirement and a (nonempty) item
requirement set, the level condition is evaluated first; the item
condition is satisfied by current ownership or a previous unlock, in which
case the outcome is exactly the level check's; and when both conditions
fail the reason reported is the item message, overwriting the level
reason. -/
theorem check_access_item_overrides_level (db : DB) (post_slug : String) (l : Int)
    (item : String) (hl : l ≠ 0) (hitem : item ≠ "") :
    ((user_has_item db item = true ∨ is_post_unlocked db post_slug = true) →
        (check_access db post_slug (some l) (some item)).has_access
            = !decide (db.user.level < l) ∧
          (check_access db post_slug (some l) (some item)).reason
            = if db.user.level < l then some ("Requires level " ++ toString l) else none)
      ∧ (db.user.level < l → user_has_item db item = false →
          is_post_unlocked db post_slug = false →
          (check_access db post_slug (some l) (some item)).has_access = false ∧
            (check_access db post_slug (some l) (some item)).reason
              = some ("Requires item: " ++ item)) := by
  unfold check_access
  constructor
  · intro hcond
    by_cases hlt : db.user.level < l
    · rcases hcond with hi | hu
      · simp [hitem, hl, hlt, hi]
      · simp [hitem, hl, hlt, hu]
    · rcases hcond with hi | hu
      · simp [hitem, hl, hlt, hi]
      · simp [hitem, hl, hlt, hu]
  · intro hlt hi hu
    simp [hitem, hl, hlt, hi, hu]

/-- C2 (code behaviour at the failing input): with one completed row
(completed on day 5) and one in-progress row (started on day 10),
`get_all_user_progress` lists the COMPLETED entry first —
`list.sort(key=sort_key, reverse=True)` reverses the tier component of the
key as well, so the completed tier (key `1`) precedes the in-progress tier
(key `0`), contradicting the in-progress-first order stated by the spec
and by the comment above the sort. -/
theorem listProgress_completed_tier_first :
    (get_all_user_progress envC dbTwoTier true).map
        (fun r => (r.quest_id, r.in_progress, r.completed))
      = [("q1", false, true), ("q2", true, false)] := by decide

/-- Helper: after `setQuest` with a constant replacement row taken from
the row found at `qid` (with no smaller attempt counter), every row that
is still found has an attempt counter no smaller than before. -/
theorem attempts_mono_of_found (db : DB) (qid : String) (p0 p0' : QuestProgress)
    (h : get_user_quest db qid = some p0) (hid : p0'.quest_id = p0.quest_id)
    (ha : p0.attempts ≤ p0'.attempts) (qid' : String) (p q : QuestProgress)
    (hp : get_user_quest db qid' = some p)
    (hq : get_user_quest (setQuest db qid (fun _ => p0')) qid' = some q) :
    p.attempts ≤ q.attempts := by
  have hid0 : p0.quest_id = qid := by simpa using List.find?_some h
  rw [get_user_quest_setQuest db qid _ (fun r hr => by rw [hid, hid0, hr]) qid'] at hq
  rw [hp] at hq
  have hq' : (if p.quest_id == qid then p0' else p) = q := by simpa using hq
  by_cases hc : p.quest_id == qid
  · rw [if_pos hc] at hq'
    have hpid : p.quest_id = qid' := by simpa using List.find?_some hp
    have hceq : p.quest_id = qid := by simpa using hc
    have hqq : qid' = qid := hpid ▸ hceq
    subst hqq
    rw [h] at hp
    have hpp : p0 = p := by simpa using hp
    rw [← hq', ← hpp]
    exact ha
  · rw [if_neg hc] at hq'
    exact hq' ▸ le_refl _

/-- Helper: appending a fresh row leaves every previously found row
untouched. -/
theorem found_row_of_append (db : DB) (p' : QuestProgress) (qid' : String)
    (p q : QuestProgress) (hp : get_user_quest db qid' = some p)
    (hq : get_user_quest { db with quest_progress := db.quest_progress ++ [p'] } qid'
      = some q) : p = q := by
  rw [get_user_quest_append, hp] at hq
  simpa [Option.or] using hq

/-- Helper: `mark_completed` with no existing row creates one with a
single attempt. -/
theorem mark_completed_creates (now : Timestamp) (db : DB) (qid ans : String)
    (hn : get_user_quest db qid = none) :
    get_user_quest (mark_completed now db qid ans).2 qid =
      some { quest_id := qid, completed := true, completed_at := some now,
             answer_given := some ans, attempts := 1, started_at := some now } := by
  unfold mark_completed
  rw [hn]
  refine Eq.trans (get_user_quest_append db _ qid) ?_
  rw [hn]
  simp [Option.or]

/-- Helper: `increment_attempts` with no existing row creates one with a
single attempt. -/
theorem increment_attempts_creates (db : DB) (qid ans : String)
    (hn : get_user_quest db qid = none) :
    get_user_quest (increment_attempts db qid ans).2 qid =
      some { quest_id := qid, attempts := 1, answer_given := some ans } := by
  unfold increment_attempts
  rw [hn]
  refine Eq.trans (get_user_quest_append db _ qid) ?_
  rw [hn]
  simp [Option.or]

/-- Helper: `start_quest` with no existing row creates one with zero
attempts. -/
theorem start_quest_repo_creates (now : Timestamp) (db : DB) (qid : String)
    (hn : get_user_quest db qid = none) :
    get_user_quest (start_quest_repo now db qid).2.2 qid =
      some { quest_id := qid, started_at := some now, attempts := 0 } := by
  unfold start_quest_repo
  rw [hn]
  refine Eq.trans (get_user_quest_append db _ qid) ?_
  rw [hn]
  simp [Option.or]

/-- C3 (counterexample): a failed `submit_code` on a code quest with no
prior progress row succeeds (returning the failed-attempt response) yet
creates NO `QuestProgress` row: `update_last_attempt` only mutates an
existing row and the failure branch never calls `mark_completed`, so the
progress list stays empty. -/
theorem failed_submit_code_creates_no_row :
    progressAfterCode envC true (.ok "FAIL\nnot quite") 1000 dbEmpty "q2" "x"
      = some [] := by decide

/-- C3 (amended): a progress row exists after the first `start_quest` and
after the first multiple-choice submission attempt (but not after a failed
first `submit_code`, see the counterexample), and the attempt counter of a
row never decreases under any of the four repository mutations. -/
theorem progress_row_lifecycle :
    (∀ (now : Timestamp) (db : DB) (qid : String),
        get_user_quest db qid = none →
        get_user_quest (start_quest_repo now db qid).2.2 qid
          = some { quest_id := qid, started_at := some now, attempts := 0 })
      ∧ (∀ (env : Env) (now : Timestamp) (db : DB) (qid ans : String) (quest : Quest),
          get_by_quest_id env qid = some quest →
          quest.quest_type = "multiple-choice" →
          get_user_quest db qid = none →
          ∃ r db' p1, submit_answer env now db qid ans = .ok (r, db')
            ∧ get_user_quest db' qid = some p1 ∧ p1.attempts = 1)
      ∧ (∀ (db : DB) (qid ans qid' : String) (p q : QuestProgress),
          get_user_quest db qid' = some p →
          get_user_quest (increment_attempts db qid ans).2 qid' = some q →
          p.attempts ≤ q.attempts)
      ∧ (∀ (now : Timestamp) (db : DB) (qid ans qid' : String) (p q : QuestProgress),
          get_user_quest db qid' = some p →
          get_user_quest (mark_completed now db qid ans).2 qid' = some q →
          p.attempts ≤ q.attempts)
      ∧ (∀ (now : Timestamp) (db : DB) (qid qid' : String) (p q : QuestProgress),
          get_user_quest db qid' = some p →
          get_user_quest (update_last_attempt now db qid).2 qid' = some q →
          p.attempts ≤ q.attempts)
      ∧ (∀ (now : Timestamp) (db : DB) (qid qid' : String) (p q : QuestProgress),
          get_user_quest db qid' = some p →
          get_user_quest (start_quest_repo now db qid).2.2 qid' = some q →
          p.attempts ≤ q.attempts) := by
  refine ⟨?_, ?_, ?_, ?_, ?_, ?_⟩
  · intro now db qid hn
    exact start_quest_repo_creates now db qid hn
  · intro env now db qid ans quest hqq ht hn
    simp only [submit_answer, hqq, ht, ne_eq, not_true_eq_false, if_false, hn,
      Option.map_none, Option.getD_none, Bool.false_eq_true]
    cases hic : pyLower (pyStrip ans) == pyLower (pyStrip (quest.correct_answer.getD ""))
    · simp only [hic, Bool.false_eq_true, if_false]
      have hrow := increment_attempts_creates
        (create_submission now db qid "multiple-choice" false none (some ans) none)
        qid ans hn
      exact ⟨_, _, _, rfl, hrow, rfl⟩
    · simp only [hic, if_true]
      have hrow := mark_completed_creates now
        (create_submission now db qid "multiple-choice" true none (some ans) none)
        qid ans hn
      exact ⟨_, _, _, rfl, (get_user_quest_award_xp _ _ _ _ _ _).trans hrow, rfl⟩
  · intro db qid ans qid' p q hp hq
    unfold increment_attempts at hq
    cases h : get_user_quest db qid with
    | some p0 =>
      rw [h] at hq
      exact attempts_mono_of_found db qid p0
        { p0 with attempts := p0.attempts + 1, answer_given := some ans }
        h rfl (Nat.le_succ _) qid' p q hp hq
    | none =>
      rw [h] at hq
      exact (found_row_of_append db
        { quest_id := qid, attempts := 1, answer_given := some ans }
        qid' p q hp hq) ▸ le_refl _
  · intro now db qid ans qid' p q hp hq
    unfold mark_completed at hq
    cases h : get_user_quest db qid with
    | some p0 =>
      rw [h] at hq
      exact attempts_mono_of_found db qid p0
        { p0 with completed := true, completed_at := some now,
                  answer_given := some ans, attempts := p0.attempts + 1 }
        h rfl (Nat.le_succ _) qid' p q hp hq
    | none =>
      rw [h] at hq
      exact (found_row_of_append db
        { quest_id := qid, completed := true, completed_at := some now,
          answer_given := some ans, attempts := 1, started_at := some now }
        qid' p q hp hq) ▸ le_refl _
  · intro now db qid qid' p q hp hq
    unfold update_last_attempt at hq
    cases h : get_user_quest db qid with
    | some p0 =>
      rw [h] at hq
      exact attempts_mono_of_found db qid p0
        { p0 with last_attempt_at := some now, attempts := p0.attempts + 1 }
        h rfl (Nat.le_succ _) qid' p q hp hq
    | none =>
      rw [h] at hq
      have hq2 : get_user_quest db qid' = some q := hq
      exact (Option.some_inj.mp (hp.symm.trans hq2)) ▸ le_refl _
  · intro now db qid qid' p q hp hq
    unfold start_quest_repo at hq
    cases h : get_user_quest db qid with
    | some p0 =>
      rw [h] at hq
      have hq2 : get_user_quest db qid' = some q := hq
      exact (Option.some_inj.mp (hp.symm.trans hq2)) ▸ le_refl _
    | none =>
      rw [h] at hq
      exact (found_row_of_append db
        { quest_id := qid, started_at := some now, attempts := 0 }
        qid' p q hp hq) ▸ le_refl _

theorem progress_row_lifecycle_witness :
    get_user_quest (start_quest_repo 400 dbEmpty "q2").2.2 "q2"
      = some { quest_id := "q2", started_at := some 400, attempts := 0 } :=
  progress_row_lifecycle.1 400 dbEmpty "q2" rfl

/-- C7: when the review oracle raises, `submit_code` behaves exactly as it
would for an oracle that replied `FAIL` with the error feedback: it
returns normally (never propagating the failure), with `passed = false`
and the explanatory message, appends exactly one failed `QuestSubmission`,
leaves the user's XP untouched, and updates the cooldown/attempt state
precisely via `update_last_attempt`, as for any other failed attempt. -/
theorem oracle_failure_degrades (env : Env) (now : Timestamp) (db : DB)
    (quest_id code : String) (quest : Quest)
    (hq : get_by_quest_id env quest_id = some quest)
    (ht : quest.quest_type = "code")
    (hr : reaches_review now db quest_id) :
    (∀ api : Bool, submit_code env api (.error ()) now db quest_id code
        = submit_code env api (.ok ("FAIL\n" ++ aiErrorFeedback)) now db quest_id code)
      ∧ ∃ r db', submit_code env true (.error ()) now db quest_id code = .ok (r, db')
          ∧ r.passed = false ∧ r.feedback = aiErrorFeedback ∧ r.xp_awarded = 0
          ∧ db'.user = db.user
          ∧ db'.submissions = db.submissions ++
              [{ quest_id := quest_id, submission_type := "code", passed := false,
                 code_submitted := some code, answer_submitted := none,
                 ai_feedback := some aiErrorFeedback, submitted_at := now }]
          ∧ db'.quest_progress = (update_last_attempt now db quest_id).2.quest_progress := by
  have hrev : review_code true (.error ()) = (false, aiErrorFeedback) := rfl
  constructor
  · intro api
    unfold submit_code
    rw [review_error_as_fail api]
  · rcases hr with hn | ⟨p, hp, hcompleted, hcool⟩
    · simp only [submit_code, hq, ht, ne_eq, not_true_eq_false, if_false, hn,
        Option.map_none, Option.getD_none, Bool.false_eq_true, hrev,
        update_last_attempt]
      exact ⟨_, _, rfl, rfl, rfl, rfl, rfl, rfl, rfl⟩
    · rcases hcool with hla | ⟨last, hla, hge⟩
      · simp only [submit_code, hq, ht, ne_eq, not_true_eq_false, if_false, hp,
          Option.map_some', Option.getD_some, hcompleted, Bool.false_eq_true,
          hla, hrev, update_last_attempt]
        exact ⟨_, _, rfl, rfl, rfl, rfl, rfl, rfl, rfl⟩
      · have hnl : ¬((now : Int) - (last : Int) < CODE_SUBMISSION_COOLDOWN) :=
          not_lt.mpr hge
        simp only [submit_code, hq, ht, ne_eq, not_true_eq_false, if_false, hp,
          Option.map_some', Option.getD_some, hcompleted, Bool.false_eq_true,
          hla, if_neg hnl, hrev, update_last_attempt]
        exact ⟨_, _, rfl, rfl, rfl, rfl, rfl, rfl, rfl⟩

theorem oracle_failure_degrades_witness :
    submit_code envC true (.error ()) 1000 dbStarted "q2" "x"
      = submit_code envC true (.ok ("FAIL\n" ++ aiErrorFeedback)) 1000 dbStarted "q2" "x" :=
  (oracle_failure_degrades envC 1000 dbStarted "q2" "x"
    { quest_id := "q2", name := "Kata", quest_type := "code",
      language := some "javascript", hint := some "use a loop", xp_reward := 50 }
    (by decide) rfl
    (Or.inr ⟨{ quest_id := "q2", attempts := 0, started_at := some 40 },
      rfl, rfl, Or.inl rfl⟩)).1 true

/-- C10: a passing `submit_code` on a quest that already has a progress
row reports the counter read after `update_last_attempt` (one more than
before the call) while persisting two increments — `update_last_attempt`
bumps the counter once and `mark_completed` bumps it again — so the stored
row ends at `attempts + 2`. -/
theorem passing_submit_code_double_increment (env : Env) (api : Bool)
    (oracle : Except Unit String) (now : Timestamp) (db : DB) (quest_id code : String)
    (quest : Quest) (p : QuestProgress)
    (hq : get_by_quest_id env quest_id = some quest)
    (ht : quest.quest_type = "code")
    (hp : get_user_quest db quest_id = some p)
    (hc : p.completed = false)
    (hcool : p.last_attempt_at = none ∨
      ∃ last, p.last_attempt_at = some last ∧
        CODE_SUBMISSION_COOLDOWN ≤ (now : Int) - (last : Int))
    (hpass : (review_code api oracle).1 = true) :
    ∃ r db', submit_code env api oracle now db quest_id code = .ok (r, db')
      ∧ r.attempts = p.attempts + 1
      ∧ ∃ p', get_user_quest db' quest_id = some p'
          ∧ p'.attempts = p.attempts + 2 := by
  have h1 := update_last_attempt_updates now db quest_id p hp
  have hp2 : get_user_quest
      (create_submission now (update_last_attempt now db quest_id).2 quest_id "code"
        true (some code) none (some (review_code api oracle).2)) quest_id =
      some { p with last_attempt_at := some now, attempts := p.attempts + 1 } :=
    (get_user_quest_create_submission _ _ _ _ _ _ _ _ _).trans h1
  have h2 := mark_completed_updates now _ quest_id (pyTake code 500) _ hp2
  rcases hcool with hla | ⟨last, hla, hge⟩
  · simp only [submit_code, hq, ht, ne_eq, not_true_eq_false, if_false, hp,
      Option.map_some', Option.getD_some, hc, Bool.false_eq_true, hla, hpass, if_true]
    refine ⟨_, _, rfl, ?_, ?_⟩
    · rw [h1]
      rfl
    · exact ⟨_, (get_user_quest_award_xp _ _ _ _ _ _).trans h2, rfl⟩
  · have hnl : ¬((now : Int) - (last : Int) < CODE_SUBMISSION_COOLDOWN) :=
      not_lt.mpr hge
    simp only [submit_code, hq, ht, ne_eq, not_true_eq_false, if_false, hp,
      Option.map_some', Option.getD_some, hc, Bool.false_eq_true, hla,
      if_neg hnl, hpass, if_true]
    refine ⟨_, _, rfl, ?_, ?_⟩
    · rw [h1]
      rfl
    · exact ⟨_, (get_user_quest_award_xp _ _ _ _ _ _).trans h2, rfl⟩

theorem passing_submit_code_double_increment_witness :
    ∃ r db', submit_code envC true (.ok "PASS\ngood work") 1000 dbStarted "q2" "x"
        = .ok (r, db')
      ∧ r.attempts = 0 + 1
      ∧ ∃ p', get_user_quest db' "q2" = some p' ∧ p'.attempts = 0 + 2 :=
  passing_submit_code_double_increment envC true (.ok "PASS\ngood work") 1000 dbStarted
    "q2" "x"
    { quest_id := "q2", name := "Kata", quest_type := "code",
      language := some "javascript", hint := some "use a loop", xp_reward := 50 }
    { quest_id := "q2", attempts := 0, started_at := some 40 }
    (by decide) rfl rfl rfl (Or.inl rfl) (by decide)

/-- C6: on a successful daily claim, the persisted streak becomes
`current_streak + 1` exactly when the most recent prior claim's UTC date
is yesterday and resets to `1` otherwise (no prior claim, or any other
gap); the XP awarded is `10 + min(newStreak - 1, 7) * 5` where the
response's `streak_day` is the new streak; and `longest_streak` becomes
`max(longest_streak, newStreak)`, so it never decreases. -/
theorem daily_streak_rules (now : Timestamp) (db : DB)
    (h : has_claimed_today now db = false) :
    (∀ lc, get_last_claim db = some lc → dateOf lc.claimed_at + 1 = dateOf now →
        (claim_daily_reward now db).2.user.current_streak = db.user.current_streak + 1)
      ∧ (∀ lc, get_last_claim db = some lc → dateOf lc.claimed_at + 1 ≠ dateOf now →
          1 ≤ dateOf now →
          (claim_daily_reward now db).2.user.current_streak = 1)
      ∧ (get_last_claim db = none →
          (claim_daily_reward now db).2.user.current_streak = 1)
      ∧ ((claim_daily_reward now db).1.xp_awarded
          = 10 + min ((claim_daily_reward now db).1.streak_day - 1) 7 * 5)
      ∧ ((claim_daily_reward now db).1.streak_day
          = (claim_daily_reward now db).2.user.current_streak)
      ∧ ((claim_daily_reward now db).2.user.longest_streak
          = max db.user.longest_streak ((claim_daily_reward now db).2.user.current_streak))
      ∧ (db.user.longest_streak ≤ (claim_daily_reward now db).2.user.longest_streak) := by
  refine ⟨?_, ?_, ?_, ?_, ?_, ?_, ?_⟩
  · intro lc hlc hy
    have hcond : dateOf lc.claimed_at = dateOf now - 1 := by omega
    simp [claim_daily_reward, award_xp, h, hlc, hcond]
  · intro lc hlc hne h1
    have hcond : ¬(dateOf lc.claimed_at = dateOf now - 1) := by omega
    simp [claim_daily_reward, award_xp, h, hlc, hcond]
  · intro hnone
    simp [claim_daily_reward, award_xp, h, hnone]
  · simp [claim_daily_reward, award_xp, h, XP_DAILY_BASE, XP_DAILY_STREAK_BONUS]
  · simp [claim_daily_reward, award_xp, h]
  · simp [claim_daily_reward, award_xp, h]
  · simp only [claim_daily_reward, h, Bool.false_eq_true, if_false]
    exact le_max_left _ _

theorem daily_streak_rules_witness :
    (claim_daily_reward 864060 dbYesterday).2.user.current_streak = 3 + 1 :=
  (daily_streak_rules 864060 dbYesterday (by decide)).1
    { claimed_at := 86400 * 9 + 50, reward_type := "xp", reward_value := 10,
      streak_day := 3 }
    (by decide) (by decide)

/-- C9: `calculate_level_from_xp` is at least `1` on every non-negative
XP value; `calculate_xp_for_level` is strictly increasing from `L = 1`
on; and the round trip `levelForXP(xpRequiredForLevel(L))` equals `L` up
to the boundary off-by-one at the exact threshold: it is `L` or `L - 1`
for every `L ≥ 1`. -/
theorem level_curve_properties :
    (∀ xp : Int, 0 ≤ xp → 1 ≤ calculate_level_from_xp xp)
      ∧ (∀ L : Int, 1 ≤ L → calculate_xp_for_level L < calculate_xp_for_level (L + 1))
      ∧ (∀ L : Int, 1 ≤ L →
          calculate_level_from_xp (calculate_xp_for_level L) = L
            ∨ calculate_level_from_xp (calculate_xp_for_level L) = L - 1) := by
  refine ⟨?_, ?_, ?_⟩
  · intro xp hxp
    unfold calculate_level_from_xp
    by_cases h : xp ≤ 0
    · rw [if_pos h]
    · rw [if_neg h]
      exact le_max_left _ _
  · intro L hL
    by_cases h1 : L ≤ 1
    · have hL1 : L = 1 := le_antisymm h1 hL
      subst hL1
      have e1 : calculate_xp_for_level 1 = 0 := by
        unfold calculate_xp_for_level
        rw [if_pos (le_refl (1 : Int))]
      rw [e1]
      unfold calculate_xp_for_level
      rw [if_neg (by norm_num : ¬((1 : Int) + 1 ≤ 1))]
      have ht : ((1 : Int) + 1).toNat = 2 := by decide
      rw [ht]
      have h2 : 1 ≤ Nat.sqrt (10000 * 2 ^ 3) := Nat.le_sqrt.mpr (by norm_num)
      exact_mod_cast Nat.lt_of_lt_of_le Nat.zero_lt_one h2
    · push_neg at h1
      obtain ⟨n, rfl⟩ : ∃ n : Nat, L = (n : Int) := ⟨L.toNat, by omega⟩
      have hn1 : 1 ≤ n := by omega
      unfold calculate_xp_for_level
      rw [if_neg (by omega : ¬((n : Int) ≤ 1)),
        if_neg (by omega : ¬((n : Int) + 1 ≤ 1)), Int.toNat_natCast,
        (by omega : ((n : Int) + 1).toNat = n + 1)]
      exact_mod_cast sqrt_curve_strict_mono n hn1
  · intro L hL
    by_cases h1 : L ≤ 1
    · left
      have hL1 : L = 1 := le_antisymm h1 hL
      subst hL1
      have e1 : calculate_xp_for_level 1 = 0 := by
        unfold calculate_xp_for_level
        rw [if_pos (le_refl (1 : Int))]
      rw [e1]
      unfold calculate_level_from_xp
      rw [if_pos (le_refl (0 : Int))]
    · push_neg at h1
      obtain ⟨n, rfl⟩ : ∃ n : Nat, L = (n : Int) := ⟨L.toNat, by omega⟩
      have hn2 : 2 ≤ n := by omega
      unfold calculate_xp_for_level
      rw [if_neg (by omega : ¬((n : Int) ≤ 1)), Int.toNat_natCast]
      have hxlow : n ≤ Nat.sqrt (10000 * n ^ 3) := sqrt_curve_lower n (by omega)
      unfold calculate_level_from_xp
      rw [if_neg (by omega :
        ¬((Nat.sqrt (10000 * n ^ 3) : Int) ≤ 0)), Int.toNat_natCast]
      obtain ⟨hlo, hhi⟩ := roundtrip_bounds n hn2
      have hvge : 1 ≤ findLargest
          (fun m => decide (10000 * m ^ 3 ≤ Nat.sqrt (10000 * n ^ 3) ^ 2))
          (Nat.sqrt (10000 * n ^ 3)) := by omega
      rw [max_eq_right (by exact_mod_cast hvge)]
      omega

theorem level_curve_properties_witness :
    1 ≤ calculate_level_from_xp 250
      ∧ calculate_xp_for_level 4 < calculate_xp_for_level 5
      ∧ (calculate_level_from_xp (calculate_xp_for_level 5) = 5
          ∨ calculate_level_from_xp (calculate_xp_for_level 5) = 5 - 1) :=
  ⟨level_curve_properties.1 250 (by decide),
   level_curve_properties.2.1 4 (by decide),
   level_curve_properties.2.2 5 (by decide)⟩

theorem check_access_item_overrides_level_witness :
    (check_access dbEmpty "post-1" (some 2) (some "key_x")).has_access = false ∧
      (check_access dbEmpty "post-1" (some 2) (some "key_x")).reason
        = some "Requires item: key_x" :=
  (check_access_item_overrides_level dbEmpty "post-1" 2 "key_x"
    (by decide) (by decide)).2 (by decide) rfl rfl

end DiegoHQ
